import Mathlib

/-!
Shallow embedding of the payment-gateway core of the black-belt-services
repository, and proofs about its specified behaviour.

Conventions of the embedding:
* Go `time.Time` / `time.Duration` values are modelled as `Int` nanoseconds
  (`time.Second = 10^9`, the zero `time.Time{}` is `0`).
* Go byte slices are modelled as `String` when only compared/carried, and as
  `List Nat` where byte-level positions matter (`readCloser`).
* Network I/O is modelled by an oracle argument describing the response the
  external world would deliver for the (single) request the code issues;
  functions additionally return the number of outbound requests they made,
  so that "no network call happens" is a provable statement.
* Fallible Go functions returning `(T, error)` become `Except String T`
  (or `Except EfiError T` where the source returns a typed `*APIError`).
-/

/-- Nanoseconds in one second, matching Go `time.Second`. -/
def second : Int := 1000000000

/-- Nanoseconds in one minute, matching Go `time.Minute`. -/
def minute : Int := 60 * second

namespace Domain

/-- Webhook processing status, from `internal/domain/plan.go` (`WebhookStatus`). -/
inductive WebhookStatus where
  | pending
  | processing
  | processed
  | failed
  | skipped
deriving DecidableEq, Repr

/-- Maximum retry attempts, from `internal/domain/plan.go` (`MaxWebhookRetries = 5`). -/
def maxWebhookRetries : Nat := 5

/-- Webhook event audit record, from `internal/domain/plan.go` (`WebhookEvent`). -/
structure WebhookEvent where
  id : String
  gateway : String
  eventID : String
  eventType : String
  payload : String
  headers : String
  status : WebhookStatus
  processedAt : Option Int
  errorMessage : Option String
  retryCount : Nat
  nextRetryAt : Option Int
  receivedAt : Int
  createdAt : Int
deriving DecidableEq, Repr

/-- Embeds `NewWebhookEvent` from `internal/domain/plan.go`. -/
def newWebhookEvent (gateway eventID eventType payload headers : String)
    (now : Int) : WebhookEvent :=
  { id := ""
    gateway := gateway
    eventID := eventID
    eventType := eventType
    payload := payload
    headers := headers
    status := .pending
    processedAt := none
    errorMessage := none
    retryCount := 0
    nextRetryAt := none
    receivedAt := now
    createdAt := now }

/-- Embeds `WebhookEvent.MarkProcessed` from `internal/domain/plan.go`. -/
def WebhookEvent.markProcessed (w : WebhookEvent) (now : Int) : WebhookEvent :=
  { w with status := .processed, processedAt := some now }

/-- Embeds `WebhookEvent.MarkFailed` from `internal/domain/plan.go`: set status
to failed, record the error message, increment the retry counter, and while the
incremented counter is within `maxWebhookRetries` schedule the next retry with
exponential backoff `2^(retryCount-1)` minutes. -/
def WebhookEvent.markFailed (w : WebhookEvent) (now : Int) (errMsg : String) :
    WebhookEvent :=
  let w1 : WebhookEvent :=
    { w with
      status := .failed
      errorMessage := some errMsg
      retryCount := w.retryCount + 1 }
  if w1.retryCount ≤ maxWebhookRetries then
    { w1 with nextRetryAt := some (now + (2 ^ (w1.retryCount - 1)) * minute) }
  else
    w1

/-- Embeds `WebhookEvent.CanRetry` from `internal/domain/plan.go`. -/
def WebhookEvent.canRetry (w : WebhookEvent) : Bool :=
  w.status == .failed && w.retryCount ≤ maxWebhookRetries

/-- Subscription status, from `internal/domain/plan.go` (`SubscriptionStatus`). -/
inductive SubscriptionStatus where
  | trialing
  | active
  | pastDue
  | canceled
  | expired
deriving DecidableEq, Repr

/-- Payment gateway, from `internal/domain/plan.go` (`PaymentGateway`). -/
inductive PaymentGateway where
  | pixAuto
  | stripe
deriving DecidableEq, Repr

/-- Subscription aggregate, from `internal/domain/plan.go` (`Subscription`). -/
structure Subscription where
  id : String
  academyID : String
  planID : String
  status : SubscriptionStatus
  trialStartDate : Option Int
  trialEndDate : Option Int
  paymentGateway : Option PaymentGateway
  pixAuthorizationID : Option String
  pixRecurrenceID : Option String
  pixCustomerCPF : Option String
  pixCustomerName : Option String
  stripeCustomerID : Option String
  stripeSubscriptionID : Option String
  stripePriceID : Option String
  currentPeriodStart : Option Int
  currentPeriodEnd : Option Int
  canceledAt : Option Int
  cancelAtPeriodEnd : Bool
  cancelReason : Option String
  metadata : String
  createdAt : Int
  updatedAt : Int
deriving DecidableEq, Repr

/-- Embeds `Subscription.Activate` from `internal/domain/plan.go`: it sets the
status to active unconditionally (there is no guard on the previous status). -/
def Subscription.activate (s : Subscription) (gateway : PaymentGateway)
    (periodStart periodEnd now : Int) : Subscription :=
  { s with
    status := .active
    paymentGateway := some gateway
    currentPeriodStart := some periodStart
    currentPeriodEnd := some periodEnd
    updatedAt := now }

/-- Embeds `Subscription.MarkPastDue` from `internal/domain/plan.go`. -/
def Subscription.markPastDue (s : Subscription) (now : Int) : Subscription :=
  { s with status := .pastDue, updatedAt := now }

/-- Embeds `Subscription.Cancel` from `internal/domain/plan.go`: cancelling at
period end only records the intent, an immediate cancel flips the status and
records the cancellation time. -/
def Subscription.cancel (s : Subscription) (reason : String)
    (atPeriodEnd : Bool) (now : Int) : Subscription :=
  if atPeriodEnd then
    { s with
      cancelAtPeriodEnd := true
      cancelReason := some reason
      updatedAt := now }
  else
    { s with
      status := .canceled
      canceledAt := some now
      cancelReason := some reason
      updatedAt := now }

/-- Embeds `Subscription.Expire` from `internal/domain/plan.go`. -/
def Subscription.expire (s : Subscription) (now : Int) : Subscription :=
  { s with status := .expired, updatedAt := now }

/-- One invocation of a state-transition method on a subscription, with its
arguments. -/
inductive SubOp where
  | activate (gateway : PaymentGateway) (periodStart periodEnd now : Int)
  | markPastDue (now : Int)
  | cancel (reason : String) (atPeriodEnd : Bool) (now : Int)
  | expire (now : Int)
deriving DecidableEq, Repr

/-- Apply a single state-transition operation. -/
def applyOp (s : Subscription) : SubOp → Subscription
  | .activate gateway periodStart periodEnd now =>
      s.activate gateway periodStart periodEnd now
  | .markPastDue now => s.markPastDue now
  | .cancel reason atPeriodEnd now => s.cancel reason atPeriodEnd now
  | .expire now => s.expire now

/-- Apply a sequence of state-transition operations, left to right. -/
def applyOps (s : Subscription) (ops : List SubOp) : Subscription :=
  ops.foldl applyOp s

/-- Whether an operation is an `Activate` call. -/
def SubOp.isActivateOp : SubOp → Bool
  | .activate _ _ _ _ => true
  | _ => false

end Domain

namespace Efi

/-- OAuth2 token-endpoint response, from `internal/adapters/efi/types.go`
(`TokenResponse`). -/
structure TokenResponse where
  accessToken : String
  tokenType : String
  expiresIn : Int
  scope : String
deriving DecidableEq, Repr

/-- API error body, from `internal/adapters/efi/types.go` (`APIError`). -/
structure APIError where
  nome : String
  mensagem : String
  typ : String
  title : String
  status : Int
  detail : String
deriving DecidableEq, Repr

/-- Mutable state of the token manager, from `internal/adapters/efi/auth.go`
(`TokenManager`); the mutex and HTTP client are not data and operations take
the state explicitly. -/
structure TokenManager where
  clientID : String
  clientSecret : String
  baseURL : String
  token : String
  expiresAt : Int
  refreshLead : Int
deriving DecidableEq, Repr

/-- Embeds `NewTokenManager` from `internal/adapters/efi/auth.go`: the token
cache starts empty (Go zero values) with a 60-second refresh lead. -/
def newTokenManager (clientID clientSecret baseURL : String) : TokenManager :=
  { clientID := clientID
    clientSecret := clientSecret
    baseURL := baseURL
    token := ""
    expiresAt := 0
    refreshLead := 60 * second }

/-- Validity condition checked by both `GetToken` and the double-check inside
`refresh`: a non-empty cached token whose expiry is still more than
`refreshLead` away. -/
def TokenManager.valid (tm : TokenManager) (now : Int) : Prop :=
  tm.token ≠ "" ∧ now + tm.refreshLead < tm.expiresAt

instance (tm : TokenManager) (now : Int) : Decidable (tm.valid now) :=
  inferInstanceAs (Decidable (_ ∧ _))

/-- Outcome of the single outbound request to `POST …/oauth/token` that
`refresh` may issue. The `resp` constructor carries the status code, the raw
body, the result of decoding the body as an `APIError`, and the result of
decoding it as a `TokenResponse` (the source tries the former on non-200 and
the latter on 200). -/
inductive AuthHttpResult where
  | transportErr (msg : String)
  | readErr (msg : String)
  | resp (status : Nat) (rawBody : String) (apiErr : Option APIError)
      (tokenResp : Option TokenResponse)
deriving DecidableEq, Repr

/-- Embeds `TokenManager.refresh` from `internal/adapters/efi/auth.go`.
Returns the result, the state after the call, and the number of
token-endpoint requests made (0 when the double-check hits the cache). -/
def TokenManager.refresh (tm : TokenManager) (now : Int) (r : AuthHttpResult) :
    Except String String × TokenManager × Nat :=
  if tm.valid now then
    (.ok tm.token, tm, 0)
  else
    match r with
    | .transportErr m => (.error ("erro na requisição de auth: " ++ m), tm, 1)
    | .readErr m => (.error ("erro ao ler resposta de auth: " ++ m), tm, 1)
    | .resp status rawBody apiErr tokenResp =>
      if status ≠ 200 then
        match apiErr with
        | some e =>
          if e.mensagem ≠ "" then
            (.error ("erro de autenticação: " ++ e.mensagem), tm, 1)
          else
            (.error ("erro de autenticação: status " ++ toString status ++
              " - " ++ rawBody), tm, 1)
        | none =>
          (.error ("erro de autenticação: status " ++ toString status ++
            " - " ++ rawBody), tm, 1)
      else
        match tokenResp with
        | none => (.error "erro ao decodificar token", tm, 1)
        | some tr =>
          let tm2 : TokenManager :=
            { tm with
              token := tr.accessToken
              expiresAt := now + tr.expiresIn * second }
          (.ok tm2.token, tm2, 1)

/-- Embeds `TokenManager.GetToken` from `internal/adapters/efi/auth.go`:
return the cached token while it is valid, otherwise refresh. -/
def TokenManager.getToken (tm : TokenManager) (now : Int) (r : AuthHttpResult) :
    Except String String × TokenManager × Nat :=
  if tm.valid now then
    (.ok tm.token, tm, 0)
  else
    tm.refresh now r

/-- Embeds `TokenManager.Invalidate` from `internal/adapters/efi/auth.go`:
clear the cached token and its expiry. -/
def TokenManager.invalidate (tm : TokenManager) : TokenManager :=
  { tm with token := "", expiresAt := 0 }

/-- Failing outcomes of a refresh attempt: transport error, body-read error,
non-200 status, or a 200 body that does not decode as a `TokenResponse`. -/
def authResultFailing : AuthHttpResult → Prop
  | .transportErr _ => True
  | .readErr _ => True
  | .resp status _ _ tokenResp => status ≠ 200 ∨ tokenResp = none

end Efi

namespace Efi

/-- Error type returned by the request helpers: a formatted message error or a
decoded `*APIError`. -/
inductive EfiError where
  | msg (s : String)
  | api (e : APIError)
deriving DecidableEq, Repr

/-- Outcome of the single outbound HTTP attempt `Client.doRequest` makes for
the main request: transport error from `httpClient.Do`, a body-read error from
`io.ReadAll`, or a response carrying the status, body, and the result of
decoding the body as an `APIError`. -/
inductive ApiResult where
  | transportErr (msg : String)
  | readErr (msg : String)
  | resp (status : Nat) (body : String) (apiErr : Option APIError)
deriving DecidableEq, Repr

/-- Embeds `Client.doRequest` from `internal/adapters/efi/client.go`. The
oracle `rs` lists the responses the network would deliver for successive
attempts of this request; the returned `Nat` counts the attempts actually
made. The source makes exactly one attempt: on a 401 it invalidates the token
cache and returns an error without retrying. -/
def doRequest (tm : TokenManager) (now : Int) (authR : AuthHttpResult)
    (rs : List ApiResult) : Except EfiError String × TokenManager × Nat :=
  match tm.getToken now authR with
  | (.error e, tm1, _) => (.error (.msg e), tm1, 0)
  | (.ok _tok, tm1, _) =>
    match rs.headD (.transportErr "sem resposta") with
    | .transportErr m =>
      (.error (.msg ("erro na requisição HTTP: " ++ m)), tm1, 1)
    | .readErr m =>
      (.error (.msg ("erro ao ler resposta: " ++ m)), tm1, 1)
    | .resp status body apiErr =>
      if status = 401 then
        (.error (.msg "token inválido ou expirado"), tm1.invalidate, 1)
      else if 400 ≤ status then
        match apiErr with
        | some e => (.error (.api e), tm1, 1)
        | none =>
          (.error (.msg ("erro da API: status " ++ toString status ++ " - " ++
            body)), tm1, 1)
      else
        (.ok body, tm1, 1)

/-- Outcome of the single outbound HTTP attempt `doAuthenticatedRequest`
makes. Unlike `Client.doRequest`, its body-reading loop breaks on any read
error without failing, so there is no read-error outcome: the oracle's `body`
is whatever the loop accumulated. -/
inductive AuthedApiResult where
  | transportErr (msg : String)
  | resp (status : Nat) (body : String) (apiErr : Option APIError)
deriving DecidableEq, Repr

/-- Embeds `doAuthenticatedRequest` from `internal/adapters/efi/accounts.go`
(the helper shared by `AccountsClient`). Like `Client.doRequest` it makes
exactly one attempt and, on a 401, invalidates the token cache and returns an
error without retrying. -/
def doAuthenticatedRequest (tm : TokenManager) (now : Int)
    (authR : AuthHttpResult) (rs : List AuthedApiResult) :
    Except EfiError String × TokenManager × Nat :=
  match tm.getToken now authR with
  | (.error e, tm1, _) => (.error (.msg e), tm1, 0)
  | (.ok _tok, tm1, _) =>
    match rs.headD (.transportErr "sem resposta") with
    | .transportErr m =>
      (.error (.msg ("erro na requisição HTTP: " ++ m)), tm1, 1)
    | .resp status body apiErr =>
      if status = 401 then
        (.error (.msg "token inválido ou expirado"), tm1.invalidate, 1)
      else if 400 ≤ status then
        match apiErr with
        | some e => (.error (.api e), tm1, 1)
        | none =>
          (.error (.msg ("erro da API: status " ++ toString status ++ " - " ++
            body)), tm1, 1)
      else
        (.ok body, tm1, 1)

/-- Payer data, from `internal/adapters/efi/types.go` (`PixDevedor`). -/
structure PixDevedor where
  cpf : String
  cnpj : String
  nome : String
  email : String
deriving DecidableEq, Repr

/-- PIX payment notification, from `internal/adapters/efi/types.go`
(`PixPayment`). -/
structure PixPayment where
  endToEndID : String
  txid : String
  value : String
  payer : PixDevedor
  paymentTime : String
  info : String
deriving DecidableEq, Repr

/-- Recurrence status-change notification, from
`internal/adapters/efi/types.go` (`RecurrenceEvent`). -/
structure RecurrenceEvent where
  id : String
  contract : String
  status : String
  timestamp : String
  reason : String
deriving DecidableEq, Repr

/-- Webhook payload, from `internal/adapters/efi/types.go` (`WebhookEvent`). -/
structure WebhookEvent where
  typ : String
  timestamp : String
  pix : List PixPayment
  recEvent : Option RecurrenceEvent
deriving DecidableEq, Repr

/-- Webhook handler configuration, from `internal/adapters/efi/webhooks.go`
(`WebhookHandler`). The Go callbacks are nilable function fields; `OnError` is
a pure notification hook that cannot influence the response and is not
modelled. -/
structure WebhookHandler where
  onPixPayment : Option (PixPayment → Except String Unit)
  onRecurrenceUpdate : Option (RecurrenceEvent → Except String Unit)
  webhookSecret : String
  skipSignatureValidation : Bool

/-- Embeds `WebhookHandler.validateSignature` from
`internal/adapters/efi/webhooks.go`. `hmacSha256Hex secret body` stands for
the hex-encoded HMAC-SHA256 of `body` under `secret`; the source compares the
header value against it with `hmac.Equal`. -/
def validateSignature (hmacSha256Hex : String → String → String)
    (h : WebhookHandler) (body : String) (signature : String) : Bool :=
  if signature = "" then
    false
  else
    signature == hmacSha256Hex h.webhookSecret body

/-- Embeds `WebhookHandler.ProcessPixPayment` from
`internal/adapters/efi/webhooks.go`; the Bool records whether the
`OnPixPayment` callback was actually invoked. -/
def processPixPayment (h : WebhookHandler) (pix : PixPayment) :
    Bool × Except String Unit :=
  match h.onPixPayment with
  | none => (false, .ok ())
  | some f => (true, f pix)

/-- The `for _, pix := range event.Pix` loop of `processEvent`: dispatch each
payment in order, stopping at the first callback error. Returns the payments
that were dispatched to the callback and the loop's result. -/
def processPixList (h : WebhookHandler) :
    List PixPayment → List PixPayment × Except String Unit
  | [] => ([], .ok ())
  | p :: rest =>
    match processPixPayment h p with
    | (inv, .error e) => (if inv then [p] else [], .error e)
    | (inv, .ok _) =>
      let out := processPixList h rest
      ((if inv then [p] else []) ++ out.1, out.2)

/-- Embeds `WebhookHandler.ProcessRecurrenceUpdate` from
`internal/adapters/efi/webhooks.go`; the Bool records whether the
`OnRecurrenceUpdate` callback was actually invoked. -/
def processRecurrenceUpdate (h : WebhookHandler) (e : RecurrenceEvent) :
    Bool × Except String Unit :=
  match h.onRecurrenceUpdate with
  | none => (false, .ok ())
  | some f => (true, f e)

/-- Embeds `WebhookHandler.processEvent` from
`internal/adapters/efi/webhooks.go`, instrumented with the payloads that were
dispatched to callbacks. -/
def processEvent (h : WebhookHandler) (event : WebhookEvent) :
    List PixPayment × Option RecurrenceEvent × Except String Unit :=
  match processPixList h event.pix with
  | (ds, .error e) => (ds, none, .error e)
  | (ds, .ok _) =>
    match event.recEvent with
    | none => (ds, none, .ok ())
    | some r =>
      let out := processRecurrenceUpdate h r
      (ds, if out.1 then some r else none, out.2)

/-- Inbound HTTP request as seen by the webhook handler: the method, the
outcome of `io.ReadAll(r.Body)`, and the effective signature header value
(`r.Header.Get` is case-insensitive, so the `X-Signature` / `x-signature`
fallback reads the same value). -/
structure HttpRequest where
  method : String
  bodyResult : Except String String
  xSignature : String
deriving Repr

/-- Observable outcome of handling a webhook request: the HTTP status written
and the payloads dispatched to event callbacks. -/
structure HandlerOutput where
  status : Nat
  dispatchedPix : List PixPayment
  dispatchedRec : Option RecurrenceEvent

/-- Embeds `WebhookHandler.HandleEfiWebhook` from
`internal/adapters/efi/webhooks.go`. `parse` stands for `json.Unmarshal` of
the body into a `WebhookEvent` (`none` on malformed JSON). The processing
result is discarded: the handler writes 200 regardless, to avoid provider
retries. -/
def handleEfiWebhook (hmacSha256Hex : String → String → String)
    (parse : String → Option WebhookEvent) (h : WebhookHandler)
    (r : HttpRequest) : HandlerOutput :=
  if r.method ≠ "POST" then
    { status := 405, dispatchedPix := [], dispatchedRec := none }
  else
    match r.bodyResult with
    | .error _ => { status := 400, dispatchedPix := [], dispatchedRec := none }
    | .ok body =>
      if h.webhookSecret ≠ "" ∧ h.skipSignatureValidation = false ∧
          validateSignature hmacSha256Hex h body r.xSignature = false then
        { status := 401, dispatchedPix := [], dispatchedRec := none }
      else
        match parse body with
        | none =>
          { status := 400, dispatchedPix := [], dispatchedRec := none }
        | some event =>
          let out := processEvent h event
          { status := 200, dispatchedPix := out.1, dispatchedRec := out.2.1 }

/-- Embeds the `readCloser` byte reader from
`internal/adapters/efi/accounts.go`. -/
structure readCloser where
  bytes : List Nat
  pos : Nat
deriving DecidableEq, Repr

/-- Body of `readCloser.Read` executed on the receiver copy `r`: the values it
returns `(n, err)`, the bytes it copies into the buffer, and the state of the
copy after `r.pos += n`. `bufLen` is the length of the caller's buffer `p`;
`err = none` models a nil error (the code never returns `io.EOF`). -/
def readCloser.readBody (r : readCloser) (bufLen : Nat) :
    Nat × List Nat × Option String × readCloser :=
  if r.bytes.length ≤ r.pos then
    (0, [], none, r)
  else
    let n := min bufLen (r.bytes.length - r.pos)
    (n, (r.bytes.drop r.pos).take n, none, { r with pos := r.pos + n })

/-- One call of `readCloser.Read` as the caller observes it: because `Read` is
declared on a value receiver, the `r.pos += n` in the body mutates a copy and
the caller's `readCloser` is returned unchanged. -/
def readCloser.read (r : readCloser) (bufLen : Nat) :
    (Nat × List Nat × Option String) × readCloser :=
  let out := r.readBody bufLen
  ((out.1, out.2.1, out.2.2.1), r)

end Efi

namespace Handlers

/-- Gateway-neutral webhook event, from `internal/ports/payments.go`
(`ports.WebhookEvent`); the `Data` map is modelled as an association list. -/
structure PortsWebhookEvent where
  typ : String
  timestamp : String
  data : List (String × String)

/-- Handler state, from `internal/handlers/webhooks.go` (`WebhookHandler`).
`parseWebhookEvent` stands for `paymentProvider.ParseWebhookEvent(body,
signature)` and `eventHandlers` for the registered-handler map lookup. -/
structure WebhookHandler where
  parseWebhookEvent : String → String → Except String PortsWebhookEvent
  eventHandlers : String → Option (PortsWebhookEvent → Except String Unit)

/-- Inbound request as seen by `internal/handlers/webhooks.go`: the method,
the `io.ReadAll` outcome, and the `X-Webhook-Signature` header value. -/
structure HttpRequest where
  method : String
  bodyResult : Except String String
  signature : String

/-- Observable outcome: HTTP status written, whether a registered event
handler was invoked, and that handler's result (ignored by the response). -/
structure HandlerOutput where
  status : Nat
  handlerInvoked : Bool
  handlerResult : Except String Unit

/-- Embeds `WebhookHandler.HandleEfiWebhook` from
`internal/handlers/webhooks.go`: non-POST is 405, a body-read failure is 400,
a parse failure is 400, and once parsing succeeds the handler writes 200 even
when the registered event handler returns an error (the error is only
logged). -/
def handleEfiWebhook (wh : WebhookHandler) (r : HttpRequest) : HandlerOutput :=
  if r.method ≠ "POST" then
    { status := 405, handlerInvoked := false, handlerResult := .ok () }
  else
    match r.bodyResult with
    | .error _ =>
      { status := 400, handlerInvoked := false, handlerResult := .ok () }
    | .ok body =>
      match wh.parseWebhookEvent body r.signature with
      | .error _ =>
        { status := 400, handlerInvoked := false, handlerResult := .ok () }
      | .ok event =>
        match wh.eventHandlers event.typ with
        | some f =>
          { status := 200, handlerInvoked := true, handlerResult := f event }
        | none =>
          { status := 200, handlerInvoked := false, handlerResult := .ok () }

end Handlers

/-! Concrete sample values used by witnesses and counterexamples. -/

/-- Sample subscription with a given status and all optional fields empty. -/
def sampleSubscription (st : Domain.SubscriptionStatus) : Domain.Subscription :=
  { id := "sub-1"
    academyID := "acad-1"
    planID := "plan-1"
    status := st
    trialStartDate := none
    trialEndDate := none
    paymentGateway := none
    pixAuthorizationID := none
    pixRecurrenceID := none
    pixCustomerCPF := none
    pixCustomerName := none
    stripeCustomerID := none
    stripeSubscriptionID := none
    stripePriceID := none
    currentPeriodStart := none
    currentPeriodEnd := none
    canceledAt := none
    cancelAtPeriodEnd := false
    cancelReason := none
    metadata := ""
    createdAt := 0
    updatedAt := 0 }

/-- Freshly received sample webhook event (retryCount 0). -/
def sampleWebhookEvent : Domain.WebhookEvent :=
  Domain.newWebhookEvent "pix_auto" "evt-1" "pix" "payload" "headers" 0

/-- Sample webhook event that has already failed five times. -/
def sampleWebhookEvent5 : Domain.WebhookEvent :=
  { sampleWebhookEvent with
    status := .failed
    retryCount := 5
    nextRetryAt := some (16 * minute) }

/-! Helper lemmas about subscription state-transition sequences. -/

/-- No state-transition operation can produce the `trialing` status. -/
theorem applyOps_status_ne_trialing (s : Domain.Subscription)
    (ops : List Domain.SubOp) (h : s.status ≠ .trialing) :
    (Domain.applyOps s ops).status ≠ .trialing := by
  induction ops generalizing s with
  | nil => exact h
  | cons op rest ih =>
    apply ih
    cases op with
    | activate gateway periodStart periodEnd now =>
      simp [Domain.applyOp, Domain.Subscription.activate]
    | markPastDue now =>
      simp [Domain.applyOp, Domain.Subscription.markPastDue]
    | cancel reason atPeriodEnd now =>
      cases atPeriodEnd with
      | true => simpa [Domain.applyOp, Domain.Subscription.cancel] using h
      | false => simp [Domain.applyOp, Domain.Subscription.cancel]
    | expire now =>
      simp [Domain.applyOp, Domain.Subscription.expire]

/-- Without an `Activate` call, no operation can produce `trialing` or
`active`. -/
theorem applyOps_status_ne_active_of_no_activate (s : Domain.Subscription)
    (ops : List Domain.SubOp)
    (h : s.status ≠ .trialing ∧ s.status ≠ .active)
    (hops : ∀ op ∈ ops, op.isActivateOp = false) :
    (Domain.applyOps s ops).status ≠ .trialing ∧
    (Domain.applyOps s ops).status ≠ .active := by
  induction ops generalizing s with
  | nil => exact h
  | cons op rest ih =>
    have hop : op.isActivateOp = false := hops op (by simp)
    have hrest : ∀ op ∈ rest, Domain.SubOp.isActivateOp op = false :=
      fun o ho => hops o (by simp [ho])
    apply ih _ _ hrest
    cases op with
    | activate gateway periodStart periodEnd now =>
      simp [Domain.SubOp.isActivateOp] at hop
    | markPastDue now =>
      simp [Domain.applyOp, Domain.Subscription.markPastDue]
    | cancel reason atPeriodEnd now =>
      cases atPeriodEnd with
      | true => simpa [Domain.applyOp, Domain.Subscription.cancel] using h
      | false => simp [Domain.applyOp, Domain.Subscription.cancel]
    | expire now =>
      simp [Domain.applyOp, Domain.Subscription.expire]

/-- C2: `MarkFailed` increments `retryCount`, sets the status to `failed`,
schedules `nextRetryAt = now + 2^(retryCount-1)` minutes while the incremented
count is at most `MaxWebhookRetries = 5` (successive delays 1, 2, 4, 8, 16
minutes), and after a sixth failure schedules nothing new and `CanRetry`
returns false. -/
theorem markFailed_backoff_schedule (w : Domain.WebhookEvent) (now : Int)
    (msg : String) :
    (w.markFailed now msg).retryCount = w.retryCount + 1 ∧
    (w.markFailed now msg).status = .failed ∧
    (w.retryCount + 1 ≤ Domain.maxWebhookRetries →
      (w.markFailed now msg).nextRetryAt =
        some (now + 2 ^ w.retryCount * minute)) ∧
    (Domain.maxWebhookRetries < w.retryCount + 1 →
      (w.markFailed now msg).nextRetryAt = w.nextRetryAt ∧
      (w.markFailed now msg).canRetry = false) := by
  unfold Domain.WebhookEvent.markFailed
  by_cases h : w.retryCount + 1 ≤ Domain.maxWebhookRetries
  · refine ⟨by simp [h], by simp [h], fun _ => by simp [h], fun hgt => ?_⟩
    exact absurd h (by omega)
  · refine ⟨by simp [h], by simp [h], fun hle => absurd hle h, fun _ => ?_⟩
    refine ⟨by simp [h], ?_⟩
    simp [h, Domain.WebhookEvent.canRetry]

/-- Witness for C2 at concrete inputs: first failure of a fresh event is
rescheduled one minute out; a sixth failure keeps the old `nextRetryAt` and
can no longer be retried. -/
theorem markFailed_backoff_schedule_witness :
    (sampleWebhookEvent.markFailed 0 "boom").nextRetryAt =
      some (0 + 2 ^ 0 * minute) ∧
    ((sampleWebhookEvent5.markFailed 0 "boom").nextRetryAt =
      sampleWebhookEvent5.nextRetryAt ∧
     (sampleWebhookEvent5.markFailed 0 "boom").canRetry = false) := by
  exact ⟨(markFailed_backoff_schedule sampleWebhookEvent 0 "boom").2.2.1
      (by decide),
    (markFailed_backoff_schedule sampleWebhookEvent5 0 "boom").2.2.2
      (by decide)⟩

/-- Counterexample to C3 as stated: `Activate` has no status guard, so a
single `Activate` call takes a `canceled` (or `expired`) subscription straight
back to `active`. -/
theorem canceled_subscription_reactivated :
    (sampleSubscription .canceled).status = Domain.SubscriptionStatus.canceled ∧
    (Domain.applyOps (sampleSubscription .canceled)
      [Domain.SubOp.activate .pixAuto 0 0 0]).status =
      Domain.SubscriptionStatus.active ∧
    (Domain.applyOps (sampleSubscription .expired)
      [Domain.SubOp.activate .pixAuto 0 0 0]).status =
      Domain.SubscriptionStatus.active := by
  exact ⟨rfl, rfl, rfl⟩

/-- C3 amended: starting from `canceled` or `expired`, no sequence of the
state-transition operations ever yields `trialing`, and no sequence avoiding
`Activate` ever yields `active`; `Activate` itself, however, unconditionally
re-enters `active` (see the counterexample). -/
theorem terminal_states_no_reentry (s : Domain.Subscription)
    (ops : List Domain.SubOp)
    (h : s.status = .canceled ∨ s.status = .expired) :
    (Domain.applyOps s ops).status ≠ .trialing ∧
    ((∀ op ∈ ops, op.isActivateOp = false) →
      (Domain.applyOps s ops).status ≠ .active) := by
  have hne : s.status ≠ .trialing ∧ s.status ≠ .active := by
    rcases h with h | h <;> simp [h]
  exact ⟨applyOps_status_ne_trialing s ops hne.1,
    fun hops => (applyOps_status_ne_active_of_no_activate s ops hne hops).2⟩

/-- Witness for the amended C3 at a concrete input: a canceled subscription
run through past-due marking, an at-period-end cancel and an expire never
reaches `trialing` or `active`. -/
theorem terminal_states_no_reentry_witness :
    (Domain.applyOps (sampleSubscription .canceled)
      [Domain.SubOp.markPastDue 1, Domain.SubOp.cancel "fraude" true 2,
       Domain.SubOp.expire 3]).status ≠ Domain.SubscriptionStatus.trialing ∧
    (Domain.applyOps (sampleSubscription .canceled)
      [Domain.SubOp.markPastDue 1, Domain.SubOp.cancel "fraude" true 2,
       Domain.SubOp.expire 3]).status ≠ Domain.SubscriptionStatus.active := by
  have h := terminal_states_no_reentry (sampleSubscription .canceled)
    [Domain.SubOp.markPastDue 1, Domain.SubOp.cancel "fraude" true 2,
     Domain.SubOp.expire 3] (Or.inl rfl)
  exact ⟨h.1, h.2 (by decide)⟩

/-- C9: cancelling at period end only sets `cancelAtPeriodEnd`, `cancelReason`
and `updatedAt`, leaving `status` and `canceledAt` untouched; an immediate
cancel sets `status = canceled`, `canceledAt = now`, `cancelReason` and
`updatedAt`, leaving `cancelAtPeriodEnd` and every other field untouched. -/
theorem cancel_frame_conditions (s : Domain.Subscription) (reason : String)
    (now : Int) :
    s.cancel reason true now =
      { s with
        cancelAtPeriodEnd := true
        cancelReason := some reason
        updatedAt := now } ∧
    (s.cancel reason true now).status = s.status ∧
    (s.cancel reason true now).canceledAt = s.canceledAt ∧
    s.cancel reason false now =
      { s with
        status := .canceled
        canceledAt := some now
        cancelReason := some reason
        updatedAt := now } ∧
    (s.cancel reason false now).cancelAtPeriodEnd = s.cancelAtPeriodEnd := by
  refine ⟨rfl, rfl, rfl, rfl, rfl⟩

/-! Concrete token-manager sample values. -/

/-- Token manager straight out of `NewTokenManager` (empty cache). -/
def tmFresh : Efi.TokenManager :=
  Efi.newTokenManager "client-id" "client-secret" "https://pix-h.example"

/-- Token manager with a cached token valid far beyond the refresh lead. -/
def tmWarm : Efi.TokenManager :=
  { tmFresh with token := "cached-token", expiresAt := 3600 * second }

/-- Successful token-endpoint response with a one-hour lifetime. -/
def okTokenResp : Efi.TokenResponse :=
  { accessToken := "fresh-token"
    tokenType := "Bearer"
    expiresIn := 3600
    scope := "cob.write" }

/-- Token-endpoint response whose token lives for only ten seconds, inside
the 60-second refresh lead. -/
def shortTokenResp : Efi.TokenResponse :=
  { accessToken := "short-token"
    tokenType := "Bearer"
    expiresIn := 10
    scope := "" }

/-- C4: after the lock is acquired, `refresh` re-checks the validity
condition; when it holds the cached token is returned and zero token-endpoint
requests are made, and when it fails and the request succeeds the cache is
updated to the new token with `expiresAt = now + expiresIn` seconds. -/
theorem refresh_double_check (tm : Efi.TokenManager) (now : Int) :
    (∀ r, tm.valid now → tm.refresh now r = (.ok tm.token, tm, 0)) ∧
    (∀ rawBody apiErr tr, ¬ tm.valid now →
      tm.refresh now (.resp 200 rawBody apiErr (some tr)) =
        (.ok tr.accessToken,
         { tm with
           token := tr.accessToken
           expiresAt := now + tr.expiresIn * second }, 1)) := by
  constructor
  · intro r h
    simp [Efi.TokenManager.refresh, h]
  · intro rawBody apiErr tr h
    simp [Efi.TokenManager.refresh, h]

/-- Witness for C4 at concrete inputs: a warm cache answers the double-check
without a network request even when the network is down, and a cold cache
stores the provider's token and expiry. -/
theorem refresh_double_check_witness :
    tmWarm.refresh 0 (.transportErr "down") = (.ok "cached-token", tmWarm, 0) ∧
    tmFresh.refresh 0 (.resp 200 "" none (some okTokenResp)) =
      (.ok "fresh-token",
       { tmFresh with
         token := "fresh-token"
         expiresAt := 0 + 3600 * second }, 1) := by
  refine ⟨?_, ?_⟩
  · exact (refresh_double_check tmWarm 0).1 (.transportErr "down") (by decide)
  · exact (refresh_double_check tmFresh 0).2 "" none okTokenResp (by decide)

/-- C5: every failing refresh (transport error, body-read error, non-200
status, or an undecodable 200 body) leaves the cached token and expiry
exactly as they were, and, whenever a request was actually needed, surfaces
an error to the caller. -/
theorem refresh_failure_preserves_state (tm : Efi.TokenManager) (now : Int)
    (r : Efi.AuthHttpResult) (hr : Efi.authResultFailing r) :
    (tm.refresh now r).2.1 = tm ∧
    (¬ tm.valid now → ∃ m, (tm.refresh now r).1 = .error m) := by
  by_cases hv : tm.valid now
  · simp [Efi.TokenManager.refresh, hv]
  · cases r with
    | transportErr m => simp [Efi.TokenManager.refresh, hv]
    | readErr m => simp [Efi.TokenManager.refresh, hv]
    | resp status rawBody apiErr tokenResp =>
      simp only [Efi.authResultFailing] at hr
      by_cases hs : status = 200
      · subst hs
        have hnone : tokenResp = none := by
          rcases hr with hr | hr
          · exact absurd rfl hr
          · exact hr
        subst hnone
        simp [Efi.TokenManager.refresh, hv]
      · cases apiErr with
        | none => simp [Efi.TokenManager.refresh, hv, hs]
        | some e =>
          by_cases hm : e.mensagem = ""
          · simp [Efi.TokenManager.refresh, hv, hs, hm]
          · simp [Efi.TokenManager.refresh, hv, hs, hm]

/-- Witness for C5 at a concrete input: a transport failure against an empty
cache leaves the manager unchanged and returns an error. -/
theorem refresh_failure_preserves_state_witness :
    (tmFresh.refresh 0 (.transportErr "down")).2.1 = tmFresh ∧
    (∃ m, (tmFresh.refresh 0 (.transportErr "down")).1 = .error m) := by
  have h := refresh_failure_preserves_state tmFresh 0 (.transportErr "down")
    trivial
  exact ⟨h.1, h.2 (by decide)⟩

/-- Counterexample to C8 as stated: when the provider answers a refresh with
`expires_in = 10` seconds, `GetToken` hands that token out immediately even
though fewer than `refreshLead = 60` seconds remain before its expiry. -/
theorem getToken_inside_lead_window :
    (tmFresh.getToken 0 (.resp 200 "" none (some shortTokenResp))).1 =
      .ok "short-token" ∧
    ¬ (0 + (tmFresh.getToken 0
          (.resp 200 "" none (some shortTokenResp))).2.1.refreshLead <
        (tmFresh.getToken 0
          (.resp 200 "" none (some shortTokenResp))).2.1.expiresAt) := by
  exact ⟨rfl, by decide⟩

/-- C8 amended: a token returned by `GetToken` always has more than
`refreshLead` remaining before `expiresAt` provided every successful refresh
response carries `expires_in` strictly larger than the refresh lead; a token
returned directly from a just-completed refresh keeps only the provider's
`expires_in`, so the unconditional claim fails for short-lived tokens (see
the counterexample). -/
theorem getToken_refresh_lead (tm : Efi.TokenManager) (now : Int)
    (r : Efi.AuthHttpResult) (tok : String) (tm2 : Efi.TokenManager) (k : Nat)
    (hlead : ∀ rawBody apiErr tr,
      r = .resp 200 rawBody apiErr (some tr) →
      tm.refreshLead < tr.expiresIn * second)
    (h : tm.getToken now r = (.ok tok, tm2, k)) :
    now + tm2.refreshLead < tm2.expiresAt := by
  by_cases hv : tm.valid now
  · simp [Efi.TokenManager.getToken, hv] at h
    rcases h with ⟨-, h2, -⟩
    subst h2
    exact hv.2
  · simp [Efi.TokenManager.getToken, hv] at h
    cases r with
    | transportErr m => simp [Efi.TokenManager.refresh, hv] at h
    | readErr m => simp [Efi.TokenManager.refresh, hv] at h
    | resp status rawBody apiErr tokenResp =>
      by_cases hs : status = 200
      · subst hs
        cases tokenResp with
        | none => simp [Efi.TokenManager.refresh, hv] at h
        | some tr =>
          simp [Efi.TokenManager.refresh, hv] at h
          rcases h with ⟨-, h2, -⟩
          subst h2
          simpa using Int.add_lt_add_left (hlead rawBody apiErr tr rfl) now
      · cases apiErr with
        | none => simp [Efi.TokenManager.refresh, hv, hs] at h
        | some e =>
          by_cases hm : e.mensagem = ""
          · simp [Efi.TokenManager.refresh, hv, hs, hm] at h
          · simp [Efi.TokenManager.refresh, hv, hs, hm] at h

/-- State of `tmFresh` after a successful refresh with `okTokenResp`. -/
def tmAfterRefresh : Efi.TokenManager :=
  { tmFresh with token := "fresh-token", expiresAt := 0 + 3600 * second }

/-- Witness for the amended C8 at a concrete input: a one-hour token obtained
through a refresh of the empty cache is outside the refresh-lead window. -/
theorem getToken_refresh_lead_witness :
    0 + tmAfterRefresh.refreshLead < tmAfterRefresh.expiresAt := by
  refine getToken_refresh_lead tmFresh 0 (.resp 200 "" none (some okTokenResp))
    "fresh-token" tmAfterRefresh 1 ?_ (by rfl)
  intro rawBody apiErr tr hr
  injection hr with h1 h2 h3 h4
  injection h4 with h4
  subst h4
  decide

/-- Counterexample to C1 as stated: a gateway call answered 401 is not
retried even when a retry would have succeeded — the very first 401 already
surfaces the authentication failure after exactly one HTTP attempt (the
attempt counter is 1, and the success response left in the oracle is never
consumed). -/
theorem doRequest_first_401_surfaces :
    Efi.doRequest tmWarm 0 (.transportErr "unused")
      [Efi.ApiResult.resp 401 "" none, Efi.ApiResult.resp 200 "sucesso" none] =
      (.error (.msg "token inválido ou expirado"), tmWarm.invalidate, 1) := by
  rfl

/-- C1 amended: a 401 response makes the request function call
`CredentialCache.Invalidate` and immediately surface the authentication
failure to the caller; no automatic retry is performed (exactly one HTTP
attempt per call), and because the cache was cleared the next call will fetch
a fresh token. This holds for both `Client.doRequest` and
`doAuthenticatedRequest`. -/
theorem doRequest_401_invalidates_no_retry (tm : Efi.TokenManager) (now : Int)
    (authR : Efi.AuthHttpResult) (tok : String) (tm1 : Efi.TokenManager)
    (k : Nat) (body : String) (apiErr : Option Efi.APIError)
    (rs : List Efi.ApiResult) (rs2 : List Efi.AuthedApiResult)
    (h : tm.getToken now authR = (.ok tok, tm1, k)) :
    Efi.doRequest tm now authR (.resp 401 body apiErr :: rs) =
      (.error (.msg "token inválido ou expirado"), tm1.invalidate, 1) ∧
    Efi.doAuthenticatedRequest tm now authR (.resp 401 body apiErr :: rs2) =
      (.error (.msg "token inválido ou expirado"), tm1.invalidate, 1) ∧
    tm1.invalidate.token = "" := by
  refine ⟨?_, ?_, rfl⟩
  · simp [Efi.doRequest, h]
  · simp [Efi.doAuthenticatedRequest, h]

/-- Witness for the amended C1 at concrete inputs: a warm cache, a single
401 response. -/
theorem doRequest_401_invalidates_no_retry_witness :
    Efi.doRequest tmWarm 0 (.transportErr "unused")
      [Efi.ApiResult.resp 401 "corpo" none] =
      (.error (.msg "token inválido ou expirado"), tmWarm.invalidate, 1) ∧
    Efi.doAuthenticatedRequest tmWarm 0 (.transportErr "unused")
      [Efi.AuthedApiResult.resp 401 "corpo" none] =
      (.error (.msg "token inválido ou expirado"), tmWarm.invalidate, 1) ∧
    tmWarm.invalidate.token = "" := by
  exact doRequest_401_invalidates_no_retry tmWarm 0 (.transportErr "unused")
    "cached-token" tmWarm 0 "corpo" none [] [] (by rfl)

/-! Concrete webhook-handler sample values. -/

/-- Stand-in for the hex-encoded HMAC-SHA256 function: an arbitrary keyed
digest used only to instantiate the handler theorems. -/
def constHmac : String → String → String := fun _ _ => "digest-correto"

/-- Sample PIX payment notification. -/
def samplePix : Efi.PixPayment :=
  { endToEndID := "E12345678"
    txid := "tx123"
    value := "100.00"
    payer := { cpf := "12345678901", cnpj := "", nome := "João", email := "" }
    paymentTime := "2025-01-01T00:00:00Z"
    info := "" }

/-- Sample parsed webhook payload carrying one PIX payment. -/
def samplePixEvent : Efi.WebhookEvent :=
  { typ := "pix", timestamp := "", pix := [samplePix], recEvent := none }

/-- Parser stand-in that accepts every body as `samplePixEvent`. -/
def constParse : String → Option Efi.WebhookEvent := fun _ => some samplePixEvent

/-- Handler whose PIX callback always fails. -/
def failingEfiHandler : Efi.WebhookHandler :=
  { onPixPayment := some fun _ => .error "falha no processamento"
    onRecurrenceUpdate := some fun _ => .error "falha no processamento"
    webhookSecret := ""
    skipSignatureValidation := false }

/-- Handler requiring signature validation with secret `s3cr3t`. -/
def secretEfiHandler : Efi.WebhookHandler :=
  { onPixPayment := some fun _ => .ok ()
    onRecurrenceUpdate := none
    webhookSecret := "s3cr3t"
    skipSignatureValidation := false }

/-- Well-formed POST request with no signature header. -/
def postRequest : Efi.HttpRequest :=
  { method := "POST", bodyResult := .ok "corpo", xSignature := "" }

/-- POST request carrying a signature that does not match the digest. -/
def badSigRequest : Efi.HttpRequest :=
  { method := "POST", bodyResult := .ok "corpo",
    xSignature := "assinatura-errada" }

/-- Ports-level handler whose registered event handler always fails. -/
def failingPortsHandler : Handlers.WebhookHandler :=
  { parseWebhookEvent := fun _ _ =>
      .ok { typ := "pix", timestamp := "", data := [] }
    eventHandlers := fun _ => some fun _ => .error "falha no processamento" }

/-- Well-formed POST request for the ports-level handler. -/
def portsPostRequest : Handlers.HttpRequest :=
  { method := "POST", bodyResult := .ok "corpo", signature := "" }

/-- C6: once the method check, body read, signature validation and JSON parse
all pass, both webhook handlers respond 200 regardless of the downstream
processing outcome (the processing result never reaches the HTTP response). -/
theorem webhook_200_despite_processing_error :
    (∀ (hmacHex : String → String → String)
        (parse : String → Option Efi.WebhookEvent)
        (h : Efi.WebhookHandler) (r : Efi.HttpRequest) (body : String)
        (event : Efi.WebhookEvent),
      r.method = "POST" → r.bodyResult = .ok body →
      (h.webhookSecret = "" ∨ h.skipSignatureValidation = true ∨
        Efi.validateSignature hmacHex h body r.xSignature = true) →
      parse body = some event →
      (Efi.handleEfiWebhook hmacHex parse h r).status = 200) ∧
    (∀ (wh : Handlers.WebhookHandler) (r : Handlers.HttpRequest)
        (body : String) (event : Handlers.PortsWebhookEvent),
      r.method = "POST" → r.bodyResult = .ok body →
      wh.parseWebhookEvent body r.signature = .ok event →
      (Handlers.handleEfiWebhook wh r).status = 200) := by
  constructor
  · intro hmacHex parse h r body event hm hb hsig hp
    have hcond : ¬ (h.webhookSecret ≠ "" ∧ h.skipSignatureValidation = false ∧
        Efi.validateSignature hmacHex h body r.xSignature = false) := by
      rcases hsig with hs | hs | hs <;> simp [hs]
    simp [Efi.handleEfiWebhook, hm, hb, hcond, hp]
  · intro wh r body event hm hb hp
    simp only [Handlers.handleEfiWebhook, hm, hb, hp]
    cases wh.eventHandlers event.typ <;> simp

/-- Witness for C6 at concrete inputs: handlers whose callbacks fail still
produce a 200 response in both the adapter-level and ports-level handlers. -/
theorem webhook_200_despite_processing_error_witness :
    (Efi.handleEfiWebhook constHmac constParse failingEfiHandler
      postRequest).status = 200 ∧
    (Handlers.handleEfiWebhook failingPortsHandler portsPostRequest).status =
      200 := by
  refine ⟨?_, ?_⟩
  · exact webhook_200_despite_processing_error.1 constHmac constParse
      failingEfiHandler postRequest "corpo" samplePixEvent rfl rfl
      (Or.inl rfl) rfl
  · exact webhook_200_despite_processing_error.2 failingPortsHandler
      portsPostRequest "corpo" { typ := "pix", timestamp := "", data := [] }
      rfl rfl rfl

/-- C7: when a webhook secret is configured and validation is not skipped, a
request whose signature header is absent or does not match the body's keyed
digest is answered 401 and nothing is dispatched to any event callback. -/
theorem invalid_signature_rejected (hmacHex : String → String → String)
    (parse : String → Option Efi.WebhookEvent) (h : Efi.WebhookHandler)
    (r : Efi.HttpRequest) (body : String)
    (hm : r.method = "POST") (hb : r.bodyResult = .ok body)
    (hsec : h.webhookSecret ≠ "") (hskip : h.skipSignatureValidation = false)
    (hsig : r.xSignature = "" ∨
      r.xSignature ≠ hmacHex h.webhookSecret body) :
    (Efi.handleEfiWebhook hmacHex parse h r).status = 401 ∧
    (Efi.handleEfiWebhook hmacHex parse h r).dispatchedPix = [] ∧
    (Efi.handleEfiWebhook hmacHex parse h r).dispatchedRec = none := by
  have hval : Efi.validateSignature hmacHex h body r.xSignature = false := by
    rcases hsig with hs | hs
    · simp [Efi.validateSignature, hs]
    · by_cases he : r.xSignature = ""
      · simp [Efi.validateSignature, he]
      · simp [Efi.validateSignature, he, hs]
  simp [Efi.handleEfiWebhook, hm, hb, hsec, hskip, hval]

/-- Witness for C7 at a concrete input: a mismatching signature against the
secret-requiring handler yields 401 and no dispatch. -/
theorem invalid_signature_rejected_witness :
    (Efi.handleEfiWebhook constHmac constParse secretEfiHandler
      badSigRequest).status = 401 ∧
    (Efi.handleEfiWebhook constHmac constParse secretEfiHandler
      badSigRequest).dispatchedPix = [] ∧
    (Efi.handleEfiWebhook constHmac constParse secretEfiHandler
      badSigRequest).dispatchedRec = none := by
  exact invalid_signature_rejected constHmac constParse secretEfiHandler
    badSigRequest "corpo" rfl rfl (by decide) rfl (Or.inr (by decide))

/-- C10: because `readCloser.Read` uses a value receiver and returns a nil
error at end of data, the caller-visible state never advances, every call
returns a nil error (never `io.EOF`), any two successive calls with the same
buffer return identical results, and at end of data the call returns
`(0, nil)` rather than EOF. -/
theorem readCloser_read_never_advances (r : Efi.readCloser) (bufLen : Nat) :
    (r.read bufLen).2 = r ∧
    (r.read bufLen).1.2.2 = none ∧
    ((r.read bufLen).2).read bufLen = r.read bufLen ∧
    (r.bytes.length ≤ r.pos → (r.read bufLen).1 = (0, [], none)) := by
  refine ⟨rfl, ?_, rfl, ?_⟩
  · simp only [Efi.readCloser.read, Efi.readCloser.readBody]
    split <;> rfl
  · intro h
    simp [Efi.readCloser.read, Efi.readCloser.readBody, h]

/-- Sample reader positioned at the end of its data. -/
def sampleReader : Efi.readCloser := { bytes := [1, 2, 3], pos := 3 }

/-- Witness for C10 at a concrete input: at end of data the call returns
`(0, nil)` with the state unchanged. -/
theorem readCloser_read_never_advances_witness :
    (sampleReader.read 8).2 = sampleReader ∧
    (sampleReader.read 8).1 = (0, [], none) := by
  have h := readCloser_read_never_advances sampleReader 8
  exact ⟨h.1, h.2.2.2 (by decide)⟩
